import Mathlib

/-!
Verification of the geohash-nkn-elevation-query Earth lighting and shading core.

The development shallowly embeds the JavaScript/GLSL sources:
- GLSL built-ins (clamp, mix, smoothstep, pow, exp, max) over the reals;
- the fragment shaders of createEarthMaterial and createAtmosphereMaterial
  (src/unnamed/part_000);
- the LightingSystem controller (src/earth/modules/lighting-system.js) with
  the sun-calculator module it imports;
- a store-based model of the uniform cells used by the custom material clone
  (reference sharing versus value copy).

All real-valued shader and astronomy code is modelled over ℝ; machine floats
are idealized as exact real arithmetic.
-/

namespace GeoEarth

noncomputable section

/-! ## Part A: definitions translated from the source -/

/-! ### GLSL built-ins over the reals -/

/-- GLSL clamp(x, lo, hi) = min(max(x, lo), hi). -/
def glslClamp (x lo hi : ℝ) : ℝ := min (max x lo) hi

/-- GLSL max. -/
def glslMax (a b : ℝ) : ℝ := max a b

/-- GLSL mix(a, b, t) = a·(1−t) + b·t. -/
def glslMix (a b t : ℝ) : ℝ := a * (1 - t) + b * t

/-- The Hermite cubic t²(3 − 2t) used by GLSL smoothstep. -/
def hermite (t : ℝ) : ℝ := t * t * (3 - 2 * t)

/-- GLSL smoothstep(e0, e1, x): clamp the normalized position to [0,1] and
apply the cubic Hermite polynomial t²(3 − 2t). -/
def smoothstep (e0 e1 x : ℝ) : ℝ :=
  hermite (glslClamp ((x - e0) / (e1 - e0)) 0 1)

/-- GLSL pow, modelled by the real power function (bases are clamped
non-negative at every use site in the shaders). -/
def glslPow (x y : ℝ) : ℝ := x ^ y

/-! ### Three-component vectors (GLSL vec3 / THREE.Vector3) -/

/-- A three-component vector over the reals. -/
structure Vec3 where
  x : ℝ
  y : ℝ
  z : ℝ

namespace Vec3

/-- Componentwise addition. -/
def add (a b : Vec3) : Vec3 := ⟨a.x + b.x, a.y + b.y, a.z + b.z⟩

/-- Componentwise subtraction. -/
def sub (a b : Vec3) : Vec3 := ⟨a.x - b.x, a.y - b.y, a.z - b.z⟩

/-- Scalar multiplication (THREE.Vector3.multiplyScalar). -/
def smul (a : Vec3) (s : ℝ) : Vec3 := ⟨a.x * s, a.y * s, a.z * s⟩

/-- Division by a scalar, componentwise. -/
def divs (a : Vec3) (s : ℝ) : Vec3 := ⟨a.x / s, a.y / s, a.z / s⟩

/-- Dot product. -/
def dot (a b : Vec3) : ℝ := a.x * b.x + a.y * b.y + a.z * b.z

/-- Euclidean length. -/
def length (a : Vec3) : ℝ := Real.sqrt (dot a a)

/-- GLSL normalize / THREE.Vector3.normalize: divide by the length. -/
def normalize (a : Vec3) : Vec3 := divs a a.length

/-- Componentwise GLSL mix with a scalar blend factor. -/
def mixv (a b : Vec3) (t : ℝ) : Vec3 :=
  ⟨glslMix a.x b.x t, glslMix a.y b.y t, glslMix a.z b.z t⟩

end Vec3

/-! ### createEarthMaterial fragment shader (src/unnamed/part_000) -/

/-- Entry distance along a ray to a sphere centered at the origin
(raySphereEntryT, part_000 lines 119-126). Returns 0 when there is no
intersection and clamps the entry parameter to be non-negative. -/
def raySphereEntryT (ro rd : Vec3) (r : ℝ) : ℝ :=
  if Vec3.dot ro rd * Vec3.dot ro rd - (Vec3.dot ro ro - r * r) ≤ 0 then 0
  else glslMax
    (-Vec3.dot ro rd -
      Real.sqrt (Vec3.dot ro rd * Vec3.dot ro rd - (Vec3.dot ro ro - r * r))) 0

/-- Uniform values of createEarthMaterial (part_000 lines 51-67) that the
fragment shader reads. -/
structure EarthUniformValues where
  useImagery : ℝ
  sunDirection : Vec3
  atmosphereDayColor : Vec3
  atmosphereTwilightColor : Vec3
  roughnessLow : ℝ
  roughnessHigh : ℝ
  atmosphereScale : ℝ
  hazeStrength : ℝ
  hazeFalloff : ℝ
  hazeMax : ℝ

/-- Per-fragment inputs of the surface shader: interpolated varyings, the
camera position, the facing flag, and the texture samples at vUv. -/
structure EarthFragmentInputs where
  dayColor : Vec3
  nightColor : Vec3
  brcBlue : ℝ
  imageryColor : Vec3
  vWorldNormal : Vec3
  vWorldPosition : Vec3
  cameraPosition : Vec3
  frontFacing : Bool

/-- Day strength blend factor (part_000 line 148):
smoothstep(-0.25, 0.5, sunOrientation). -/
def dayStrength (sunOrientation : ℝ) : ℝ := smoothstep (-0.25) 0.5 sunOrientation

/-- Night-side haze attenuation factor of the surface shader (line 177):
0.25 + 0.75·smoothstep(-0.15, 0.25, sunOrientation). -/
def surfaceSunFactor (sunOrientation : ℝ) : ℝ :=
  0.25 + 0.75 * smoothstep (-0.15) 0.25 sunOrientation

/-- Haze computation of the surface shader (lines 174-180):
haze = 1 − exp(−pathLen / max(hazeFalloff, 1)); haze *= sunFactor;
haze = clamp(haze·hazeStrength, 0, hazeMax). -/
def surfaceHaze (sunOrientation pathLen hazeStrength hazeFalloff hazeMax : ℝ) : ℝ :=
  glslClamp
    ((1 - Real.exp (-pathLen / glslMax hazeFalloff 1)) * surfaceSunFactor sunOrientation
      * hazeStrength)
    0 hazeMax

/-- Front/back-face corrected world normal (lines 142-143). -/
def correctedNormal (vWorldNormal : Vec3) (frontFacing : Bool) : Vec3 :=
  if frontFacing then Vec3.normalize vWorldNormal
  else (Vec3.normalize vWorldNormal).smul (-1)

/-- Fragment main of createEarthMaterial (part_000 lines 128-192), producing
the final opaque surface color. -/
def earthFragment (u : EarthUniformValues) (i : EarthFragmentInputs) : Vec3 :=
  let cloudsStrength := smoothstep 0.2 1.0 i.brcBlue
  let actualDayColor := Vec3.mixv i.dayColor i.imageryColor u.useImagery
  let baseColor := Vec3.mixv actualDayColor ⟨1, 1, 1⟩ (cloudsStrength * 2.0)
  let N := correctedNormal i.vWorldNormal i.frontFacing
  let sunDir := Vec3.normalize u.sunDirection
  let sunOrientation := Vec3.dot N sunDir
  let atmosphereMix := smoothstep (-0.25) 0.75 sunOrientation
  let atmosphereColor := Vec3.mixv u.atmosphereTwilightColor u.atmosphereDayColor atmosphereMix
  let afterDayNight := Vec3.mixv i.nightColor baseColor (dayStrength sunOrientation)
  let C := i.cameraPosition
  let toP := Vec3.sub i.vWorldPosition C
  let tSurface := Vec3.length toP
  let rd := Vec3.divs toP (glslMax tSurface 1e-6)
  let planetR := Vec3.length i.vWorldPosition
  let atmR := planetR * u.atmosphereScale
  let tEntry := raySphereEntryT C rd atmR
  let pathLen := glslMax 0 (tSurface - tEntry)
  let haze := surfaceHaze sunOrientation pathLen u.hazeStrength u.hazeFalloff u.hazeMax
  let afterHaze := Vec3.mixv afterDayNight atmosphereColor haze
  let viewDir := Vec3.normalize (Vec3.sub C i.vWorldPosition)
  let mu := glslClamp (Vec3.dot N viewDir) 0 1
  let horizon := glslPow (1 - mu) 2.0
  Vec3.add afterHaze (atmosphereColor.smul (0.08 * horizon * haze))

/-! ### createAtmosphereMaterial fragment shader (src/unnamed/part_000) -/

/-- Uniform values of createAtmosphereMaterial (part_000 lines 286-296). -/
structure AtmosphereUniformValues where
  sunDirection : Vec3
  atmosphereDayColor : Vec3
  atmosphereTwilightColor : Vec3
  atmosphereScale : ℝ
  haloStrength : ℝ
  haloPower : ℝ
  heightFade : ℝ

/-- Per-fragment inputs of the atmosphere shell shader. -/
structure AtmosphereFragmentInputs where
  vWorldNormal : Vec3
  vWorldPosition : Vec3
  cameraPosition : Vec3
  frontFacing : Bool

/-- View direction of the shell shader (line 339). -/
def shellViewDir (i : AtmosphereFragmentInputs) : Vec3 :=
  Vec3.normalize (Vec3.sub i.cameraPosition i.vWorldPosition)

/-- Sun orientation of the shell shader (lines 341-342). -/
def shellSunOrientation (u : AtmosphereUniformValues) (i : AtmosphereFragmentInputs) : ℝ :=
  Vec3.dot (correctedNormal i.vWorldNormal i.frontFacing) (Vec3.normalize u.sunDirection)

/-- Fresnel ring of the shell shader (lines 348-349):
pow(clamp(1 − |dot(viewDir, N)|, 0, 1), haloPower). -/
def shellRing (u : AtmosphereUniformValues) (i : AtmosphereFragmentInputs) : ℝ :=
  glslPow
    (glslClamp (1 - |Vec3.dot (shellViewDir i) (correctedNormal i.vWorldNormal i.frontFacing)|) 0 1)
    u.haloPower

/-- Camera height above the reconstructed planet surface (lines 352-354). -/
def shellHeight (u : AtmosphereUniformValues) (i : AtmosphereFragmentInputs) : ℝ :=
  glslMax 0 (Vec3.length i.cameraPosition -
    Vec3.length i.vWorldPosition / glslMax u.atmosphereScale 1e-6)

/-- Altitude attenuation factor (line 355): exp(−height / max(heightFade, 1)). -/
def shellAltFactor (u : AtmosphereUniformValues) (i : AtmosphereFragmentInputs) : ℝ :=
  Real.exp (-shellHeight u i / glslMax u.heightFade 1)

/-- Halo density (line 358): mix(0.18, 1, clamp(altFactor, 0, 1)). -/
def shellDensity (u : AtmosphereUniformValues) (i : AtmosphereFragmentInputs) : ℝ :=
  glslMix 0.18 1.0 (glslClamp (shellAltFactor u i) 0 1)

/-- Forward-scatter hotspot (line 361): pow(max(dot(−viewDir, sunDir), 0), 10). -/
def shellSunSpot (u : AtmosphereUniformValues) (i : AtmosphereFragmentInputs) : ℝ :=
  glslPow (glslMax (Vec3.dot ((shellViewDir i).smul (-1)) (Vec3.normalize u.sunDirection)) 0) 10.0

/-- Night-side attenuation factor of the atmosphere shell (line 367):
0.25 + 0.75·smoothstep(-0.2, 0.25, sunOrientation). -/
def shellSunFactor (sunOrientation : ℝ) : ℝ :=
  0.25 + 0.75 * smoothstep (-0.2) 0.25 sunOrientation

/-- Output alpha of the atmosphere shell shader (part_000 lines 363-369):
alpha = haloStrength·density·ring; alpha += 0.35·sunSpot·ring;
alpha *= (0.25 + 0.75·smoothstep(-0.2, 0.25, sunOrientation));
alpha = clamp(alpha, 0, 1). -/
def atmosphereAlpha (u : AtmosphereUniformValues) (i : AtmosphereFragmentInputs) : ℝ :=
  glslClamp
    ((u.haloStrength * shellDensity u i * shellRing u i +
        0.35 * shellSunSpot u i * shellRing u i) *
      shellSunFactor (shellSunOrientation u i))
    0 1

/-- Output color of the atmosphere shell shader (lines 344-345, 370). -/
def atmosphereColorOut (u : AtmosphereUniformValues) (i : AtmosphereFragmentInputs) : Vec3 :=
  Vec3.mixv u.atmosphereTwilightColor u.atmosphereDayColor
    (smoothstep (-0.25) 0.75 (shellSunOrientation u i))

/-- Statement of claim C4 in the spec's own words, for comparison with
atmosphereAlpha: alpha = clamp(haloStrength·density·ring +
0.35·sunSpot·ring, 0, 1) scaled by the surface haze attenuation factor
0.25 + 0.75·smoothstep(−0.15, 0.25, sunOrientation). -/
def atmosphereAlphaSpecC4 (u : AtmosphereUniformValues) (i : AtmosphereFragmentInputs) : ℝ :=
  glslClamp
    (u.haloStrength * shellDensity u i * shellRing u i +
      0.35 * shellSunSpot u i * shellRing u i)
    0 1
  * surfaceSunFactor (shellSunOrientation u i)

/-! ### sun-calculator.js -/

/-- Degrees-to-radians factor RAD = π/180. -/
def RAD : ℝ := Real.pi / 180

/-- Earth obliquity: 23.4397° in radians. -/
def EARTH_OBLIQUITY : ℝ := 23.4397 * RAD

/-- toJulian: millisecond timestamp to fractional Julian day
(valueOf()/86400000 − 0.5 + J1970). -/
def toJulian (ms : ℝ) : ℝ := ms / 86400000 - 0.5 + 2440588

/-- toDays: days since the J2000 epoch. -/
def toDays (ms : ℝ) : ℝ := toJulian ms - 2451545

/-- Solar mean anomaly. -/
def solarMeanAnomaly (days : ℝ) : ℝ := (357.5291 + 0.98560028 * days) * RAD

/-- Equation of center. -/
def equationOfCenter (M : ℝ) : ℝ :=
  (1.9148 * Real.sin M + 0.0200 * Real.sin (2 * M) + 0.0003 * Real.sin (3 * M)) * RAD

/-- Ecliptic longitude: M + C + perihelion + π. -/
def eclipticLongitude (M : ℝ) : ℝ :=
  M + equationOfCenter M + 102.9372 * RAD + Real.pi

/-- Solar declination. -/
def solarDeclination (days : ℝ) : ℝ :=
  Real.arcsin (Real.sin (eclipticLongitude (solarMeanAnomaly days)) * Real.sin EARTH_OBLIQUITY)

/-- Math.atan2 on the reals. -/
def atan2 (y x : ℝ) : ℝ :=
  if 0 < x then Real.arctan (y / x)
  else if x < 0 then
    (if y < 0 then Real.arctan (y / x) - Real.pi else Real.arctan (y / x) + Real.pi)
  else if 0 < y then Real.pi / 2
  else if y < 0 then -(Real.pi / 2)
  else 0

/-- Right ascension. -/
def rightAscension (days : ℝ) : ℝ :=
  atan2 (Real.sin (eclipticLongitude (solarMeanAnomaly days)) * Real.cos EARTH_OBLIQUITY)
    (Real.cos (eclipticLongitude (solarMeanAnomaly days)))

/-- Local sidereal time. -/
def siderealTime (days lng : ℝ) : ℝ := (280.16 + 360.9856235 * days) * RAD - lng

/-- Result record of calculateSunPosition. -/
structure SunPosition where
  altitude : ℝ
  azimuth : ℝ
  declination : ℝ

/-- calculateSunPosition(date, lat, lng) with the date as a millisecond
timestamp; angles in radians. -/
def calculateSunPosition (ms lat lng : ℝ) : SunPosition :=
  let lngRad := -lng * RAD
  let phi := lat * RAD
  let days := toDays ms
  let dec := solarDeclination days
  let ra := rightAscension days
  let lmst := siderealTime days lngRad
  let H := lmst - ra
  { altitude := Real.arcsin (Real.sin phi * Real.sin dec +
      Real.cos phi * Real.cos dec * Real.cos H)
    azimuth := atan2 (Real.sin H)
      (Real.cos H * Real.sin phi - Real.tan dec * Real.cos phi)
    declination := dec }

/-- getSunDirectionVector: spherical (altitude, azimuth) to a Cartesian unit
vector, negated on x and z so the result points from Earth toward the sun. -/
def getSunDirectionVector (ms lat lng : ℝ) : Vec3 :=
  let pos := calculateSunPosition ms lat lng
  let x := Real.cos pos.altitude * Real.sin pos.azimuth
  let y := Real.sin pos.altitude
  let z := Real.cos pos.altitude * Real.cos pos.azimuth
  Vec3.normalize ⟨-x, y, -z⟩

/-- Date.getUTCHours on a millisecond timestamp. -/
def utcHours (ms : ℝ) : ℤ := ⌊ms / 3600000⌋ % 24

/-- Date.getUTCMinutes on a millisecond timestamp. -/
def utcMinutes (ms : ℝ) : ℤ := ⌊ms / 60000⌋ % 60

/-- getSimplifiedSunDirection: declination plus a linear UTC time-of-day hour
angle, ignoring observer location. -/
def getSimplifiedSunDirection (ms : ℝ) : Vec3 :=
  let days := toDays ms
  let dec := solarDeclination days
  let hours : ℝ := (utcHours ms : ℝ) + (utcMinutes ms : ℝ) / 60
  let hourAngle := hours / 24 * Real.pi * 2 - Real.pi
  Vec3.normalize
    ⟨Real.cos dec * Real.sin hourAngle, Real.sin dec, Real.cos dec * Real.cos hourAngle⟩

/-! ### lighting-system.js -/

/-- State of the LightingSystem controller. Scene-graph objects are elided:
the sun directional light is represented by its world position and its
intensity, the ambient fill light by its intensity, and Date values by real
millisecond timestamps. -/
structure LightingSystem where
  planetRadius : ℝ
  sunDistance : ℝ
  sunPosition : Vec3
  sunIntensity : ℝ
  ambientIntensity : ℝ
  currentDate : ℝ
  useSimplified : Bool
  latitude : ℝ
  longitude : ℝ
  timeSpeed : ℝ

namespace LightingSystem

/-- Constructor (lighting-system.js lines 17-44); now is the host clock value
used to seed currentDate. -/
def init (now planetRadius sunDistance : ℝ) : LightingSystem :=
  { planetRadius := planetRadius
    sunDistance := sunDistance
    sunPosition := ⟨0, 0, sunDistance⟩
    sunIntensity := 4
    ambientIntensity := 0.15
    currentDate := now
    useSimplified := true
    latitude := 0
    longitude := 0
    timeSpeed := 0 }

/-- The direction produced by the active sun model (lines 56-64). -/
def activeSunDirection (s : LightingSystem) : Vec3 :=
  if s.useSimplified then getSimplifiedSunDirection s.currentDate
  else getSunDirectionVector s.currentDate s.latitude s.longitude

/-- updateSunPosition(date) (lines 51-68): an explicit date replaces
currentDate; the sun light is repositioned at sunDistance along the active
model's direction. -/
def updateSunPosition (s : LightingSystem) (date : Option ℝ) : LightingSystem :=
  let s1 := match date with
    | some d => { s with currentDate := d }
    | none => s
  { s1 with sunPosition := (activeSunDirection s1).smul s1.sunDistance }

/-- setDate (lines 86-89). -/
def setDate (s : LightingSystem) (d : ℝ) : LightingSystem :=
  updateSunPosition { s with currentDate := d } none

/-- setLocation (lines 97-102): stores the location and switches to the full
calculation. -/
def setLocation (s : LightingSystem) (lat lng : ℝ) : LightingSystem :=
  updateSunPosition
    { s with latitude := lat, longitude := lng, useSimplified := false } none

/-- setSimplifiedMode (lines 109-112). -/
def setSimplifiedMode (s : LightingSystem) (enabled : Bool) : LightingSystem :=
  updateSunPosition { s with useSimplified := enabled } none

/-- setTimeSpeed (lines 119-121). -/
def setTimeSpeed (s : LightingSystem) (speed : ℝ) : LightingSystem :=
  { s with timeSpeed := speed }

/-- update(deltaTime) (lines 128-135): when timeSpeed is nonzero, advance the
simulated clock by deltaTime·1000·timeSpeed milliseconds and recompute the
sun position; otherwise do nothing. -/
def update (s : LightingSystem) (deltaTime : ℝ) : LightingSystem :=
  if s.timeSpeed ≠ 0 then
    updateSunPosition
      { s with currentDate := s.currentDate + deltaTime * 1000 * s.timeSpeed } none
  else s

/-- setIntensity (lines 142-144). -/
def setIntensity (s : LightingSystem) (v : ℝ) : LightingSystem :=
  { s with sunIntensity := v }

/-- setAmbientIntensity (lines 151-153). -/
def setAmbientIntensity (s : LightingSystem) (v : ℝ) : LightingSystem :=
  { s with ambientIntensity := v }

/-- getSunDirection (lines 160-162). -/
def getSunDirection (s : LightingSystem) : Vec3 := Vec3.normalize s.sunPosition

/-- Time info snapshot returned by getTimeInfo. -/
structure TimeInfo where
  date : ℝ
  hours : ℤ
  minutes : ℤ
  timeOfDay : ℝ

/-- getTimeInfo (lines 169-176). -/
def getTimeInfo (s : LightingSystem) : TimeInfo :=
  { date := s.currentDate
    hours := utcHours s.currentDate
    minutes := utcMinutes s.currentDate
    timeOfDay := (utcHours s.currentDate : ℝ) + (utcMinutes s.currentDate : ℝ) / 60 }

end LightingSystem

/-! ### Uniform-cell store model for material cloning (part_000 lines 197-261)

JavaScript uniform objects such as uniforms.sunDirection are mutable cells;
clone() copies some of them into fresh cells and shares others by
reference. Cells are identified by natural numbers in a store. -/

/-- A value held by a uniform cell: a texture handle (possibly null), a
scalar, or a color/vector triple; scalars over ℚ keep the model decidable. -/
inductive UniformValue where
  | tex : Option ℕ → UniformValue
  | num : ℚ → UniformValue
  | vec : ℚ × ℚ × ℚ → UniformValue
deriving DecidableEq

/-- A store mapping uniform-cell identifiers to their current values. -/
def UniformStore := ℕ → UniformValue

/-- Mutate one cell of the store. -/
def writeCell (st : UniformStore) (i : ℕ) (v : UniformValue) : UniformStore :=
  fun j => if j = i then v else st j

/-- The store before any allocation: every cell holds a null texture. -/
def emptyStore : UniformStore := fun _ => UniformValue.tex none

/-- The uniform cells referenced by an earth material. The haze-related
fields are optional because clone() builds clonedUniforms without any
entries for atmosphereScale, hazeStrength, hazeFalloff and hazeMax. -/
structure EarthMaterialRefs where
  dayTexture : ℕ
  nightTexture : ℕ
  bumpRoughnessCloudsTexture : ℕ
  imageryTexture : ℕ
  useImagery : ℕ
  sunDirection : ℕ
  atmosphereDayColor : ℕ
  atmosphereTwilightColor : ℕ
  roughnessLow : ℕ
  roughnessHigh : ℕ
  atmosphereScale : Option ℕ
  hazeStrength : Option ℕ
  hazeFalloff : Option ℕ
  hazeMax : Option ℕ
deriving DecidableEq

/-- Scalar option values consumed by createEarthMaterial. -/
structure EarthMaterialOptions where
  atmosphereDayColor : ℚ × ℚ × ℚ
  atmosphereTwilightColor : ℚ × ℚ × ℚ
  roughnessLow : ℚ
  roughnessHigh : ℚ
  atmosphereScale : ℚ
  hazeStrength : ℚ
  hazeFalloff : ℚ
  hazeMax : ℚ

/-- createEarthMaterial uniform allocation (part_000 lines 51-67): fourteen
fresh cells filled with the initial values; sunDirection starts as the zero
vector, imageryTexture as null, useImagery as 0. Returns the material's
cell references, the new store, and the next fresh cell id. -/
def createEarthMaterialRefs (st : UniformStore) (fresh : ℕ)
    (texDay texNight texBrc : Option ℕ) (opts : EarthMaterialOptions) :
    EarthMaterialRefs × UniformStore × ℕ :=
  let m : EarthMaterialRefs :=
    { dayTexture := fresh
      nightTexture := fresh + 1
      bumpRoughnessCloudsTexture := fresh + 2
      imageryTexture := fresh + 3
      useImagery := fresh + 4
      sunDirection := fresh + 5
      atmosphereDayColor := fresh + 6
      atmosphereTwilightColor := fresh + 7
      roughnessLow := fresh + 8
      roughnessHigh := fresh + 9
      atmosphereScale := some (fresh + 10)
      hazeStrength := some (fresh + 11)
      hazeFalloff := some (fresh + 12)
      hazeMax := some (fresh + 13) }
  let st0 := writeCell st fresh (UniformValue.tex texDay)
  let st1 := writeCell st0 (fresh + 1) (UniformValue.tex texNight)
  let st2 := writeCell st1 (fresh + 2) (UniformValue.tex texBrc)
  let st3 := writeCell st2 (fresh + 3) (UniformValue.tex none)
  let st4 := writeCell st3 (fresh + 4) (UniformValue.num 0)
  let st5 := writeCell st4 (fresh + 5) (UniformValue.vec (0, 0, 0))
  let st6 := writeCell st5 (fresh + 6) (UniformValue.vec opts.atmosphereDayColor)
  let st7 := writeCell st6 (fresh + 7) (UniformValue.vec opts.atmosphereTwilightColor)
  let st8 := writeCell st7 (fresh + 8) (UniformValue.num opts.roughnessLow)
  let st9 := writeCell st8 (fresh + 9) (UniformValue.num opts.roughnessHigh)
  let st10 := writeCell st9 (fresh + 10) (UniformValue.num opts.atmosphereScale)
  let st11 := writeCell st10 (fresh + 11) (UniformValue.num opts.hazeStrength)
  let st12 := writeCell st11 (fresh + 12) (UniformValue.num opts.hazeFalloff)
  let st13 := writeCell st12 (fresh + 13) (UniformValue.num opts.hazeMax)
  (m, st13, fresh + 14)

/-- material.clone (part_000 lines 223-261): fresh value-copied cells for the
three base textures and the two roughness scalars, a fresh empty imagery
cell with useImagery 0, shared references for sunDirection and the two
atmosphere colors, and no cells at all for the haze uniforms. -/
def cloneEarthMaterial (m : EarthMaterialRefs) (st : UniformStore) (fresh : ℕ) :
    EarthMaterialRefs × UniformStore × ℕ :=
  let c : EarthMaterialRefs :=
    { dayTexture := fresh
      nightTexture := fresh + 1
      bumpRoughnessCloudsTexture := fresh + 2
      imageryTexture := fresh + 3
      useImagery := fresh + 4
      sunDirection := m.sunDirection
      atmosphereDayColor := m.atmosphereDayColor
      atmosphereTwilightColor := m.atmosphereTwilightColor
      roughnessLow := fresh + 5
      roughnessHigh := fresh + 6
      atmosphereScale := none
      hazeStrength := none
      hazeFalloff := none
      hazeMax := none }
  let st0 := writeCell st fresh (st m.dayTexture)
  let st1 := writeCell st0 (fresh + 1) (st m.nightTexture)
  let st2 := writeCell st1 (fresh + 2) (st m.bumpRoughnessCloudsTexture)
  let st3 := writeCell st2 (fresh + 3) (UniformValue.tex none)
  let st4 := writeCell st3 (fresh + 4) (UniformValue.num 0)
  let st5 := writeCell st4 (fresh + 5) (st m.roughnessLow)
  let st6 := writeCell st5 (fresh + 6) (st m.roughnessHigh)
  (c, st6, fresh + 7)

/-- The intercepted map property setter (part_000 lines 210-218, 245-253):
stores the texture into the material's own imagery cell and sets its
useImagery flag to 1 or 0. -/
def setMap (m : EarthMaterialRefs) (st : UniformStore) (t : Option ℕ) : UniformStore :=
  writeCell (writeCell st m.imageryTexture (UniformValue.tex t)) m.useImagery
    (UniformValue.num (match t with | some _ => 1 | none => 0))

/-! ## Part B: helper lemmas -/

lemma glslClamp_le (x lo hi : ℝ) : glslClamp x lo hi ≤ hi := min_le_right _ _

lemma glslClamp_nonneg (x hi : ℝ) (hhi : 0 ≤ hi) : 0 ≤ glslClamp x 0 hi :=
  le_min (le_max_right _ _) hhi

lemma glslClamp_mono (lo hi : ℝ) {x y : ℝ} (h : x ≤ y) :
    glslClamp x lo hi ≤ glslClamp y lo hi :=
  min_le_min (max_le_max h le_rfl) le_rfl

lemma glslClamp_of_mem (x lo hi : ℝ) (h0 : lo ≤ x) (h1 : x ≤ hi) :
    glslClamp x lo hi = x := by
  unfold glslClamp
  rw [max_eq_left h0, min_eq_left h1]

lemma glslClamp_mem_Icc (x lo hi : ℝ) (h : lo ≤ hi) :
    lo ≤ glslClamp x lo hi ∧ glslClamp x lo hi ≤ hi :=
  ⟨le_min (le_max_right _ _) h, min_le_right _ _⟩

lemma glslClamp_eq_hi {x lo hi : ℝ} (hx : hi ≤ x) (hlo : lo ≤ hi) :
    glslClamp x lo hi = hi := by
  unfold glslClamp
  rw [max_eq_left (le_trans hlo hx), min_eq_right hx]

lemma smoothstep_eq_zero {e0 e1 x : ℝ} (he : e0 < e1) (hx : x ≤ e0) :
    smoothstep e0 e1 x = 0 := by
  unfold smoothstep glslClamp hermite
  have hq : (x - e0) / (e1 - e0) ≤ 0 :=
    div_nonpos_of_nonpos_of_nonneg (by linarith) (by linarith)
  have hmx : max ((x - e0) / (e1 - e0)) 0 = 0 := max_eq_right hq
  rw [hmx]
  norm_num

lemma smoothstep_eq_one {e0 e1 x : ℝ} (he : e0 < e1) (hx : e1 ≤ x) :
    smoothstep e0 e1 x = 1 := by
  unfold smoothstep glslClamp hermite
  have hd : 0 < e1 - e0 := by linarith
  have hq : (1 : ℝ) ≤ (x - e0) / (e1 - e0) := by
    rw [le_div_iff₀ hd]; linarith
  have h0 : (0 : ℝ) ≤ (x - e0) / (e1 - e0) := le_trans zero_le_one hq
  rw [max_eq_left h0, min_eq_right hq]
  norm_num

/-- The Hermite cubic t²(3 − 2t) is strictly monotone on [0, 1]. -/
lemma hermite_strictMono {a b : ℝ} (ha : 0 ≤ a) (hab : a < b) (hb : b ≤ 1) :
    hermite a < hermite b := by
  unfold hermite
  nlinarith [mul_pos (sub_pos.mpr hab) (sub_pos.mpr hab),
    mul_nonneg ha (sub_nonneg.mpr hb), sq_nonneg (a + b), sq_nonneg (a - b)]

lemma hermite_mem_Icc {t : ℝ} (h0 : 0 ≤ t) (h1 : t ≤ 1) :
    0 ≤ hermite t ∧ hermite t ≤ 1 := by
  unfold hermite
  constructor
  · nlinarith
  · nlinarith [mul_nonneg (mul_nonneg (sub_nonneg.mpr h1) (sub_nonneg.mpr h1))
      (by linarith : (0:ℝ) ≤ 1 + 2 * t)]

lemma smoothstep_nonneg (e0 e1 x : ℝ) : 0 ≤ smoothstep e0 e1 x := by
  have h := glslClamp_mem_Icc ((x - e0) / (e1 - e0)) 0 1 zero_le_one
  exact (hermite_mem_Icc h.1 h.2).1

lemma smoothstep_le_one (e0 e1 x : ℝ) : smoothstep e0 e1 x ≤ 1 := by
  have h := glslClamp_mem_Icc ((x - e0) / (e1 - e0)) 0 1 zero_le_one
  exact (hermite_mem_Icc h.1 h.2).2

lemma smoothstep_strict {e0 e1 a b : ℝ} (he : e0 < e1)
    (ha : e0 ≤ a) (hab : a < b) (hb : b ≤ e1) :
    smoothstep e0 e1 a < smoothstep e0 e1 b := by
  unfold smoothstep
  have hd : 0 < e1 - e0 := by linarith
  have hqa0 : 0 ≤ (a - e0) / (e1 - e0) := div_nonneg (by linarith) (le_of_lt hd)
  have hqa1 : (a - e0) / (e1 - e0) ≤ 1 := by
    rw [div_le_one hd]; linarith
  have hqb0 : 0 ≤ (b - e0) / (e1 - e0) := div_nonneg (by linarith) (le_of_lt hd)
  have hqb1 : (b - e0) / (e1 - e0) ≤ 1 := by
    rw [div_le_one hd]; linarith
  rw [glslClamp_of_mem _ _ _ hqa0 hqa1, glslClamp_of_mem _ _ _ hqb0 hqb1]
  exact hermite_strictMono hqa0 ((div_lt_div_iff_of_pos_right hd).mpr (by linarith)) hqb1

/-- The surface night-side factor always lies in [0.25, 1]. -/
lemma surfaceSunFactor_mem (s : ℝ) :
    0.25 ≤ surfaceSunFactor s ∧ surfaceSunFactor s ≤ 1 := by
  unfold surfaceSunFactor
  constructor
  · nlinarith [smoothstep_nonneg (-0.15) 0.25 s]
  · nlinarith [smoothstep_le_one (-0.15) 0.25 s]

/-- Normalizing a vector of unit dot product returns it unchanged. -/
lemma normalize_simple (v : Vec3) (h : Vec3.dot v v = 1) : Vec3.normalize v = v := by
  unfold Vec3.normalize Vec3.length Vec3.divs
  rw [h, Real.sqrt_one]
  simp

/-- The length of the zero vector is 0. -/
lemma length_zero_vec : Vec3.length ⟨0, 0, 0⟩ = 0 := by
  unfold Vec3.length Vec3.dot
  norm_num [Real.sqrt_zero]

/-- A nonzero vector has strictly positive length. -/
lemma length_pos_of_ne {v : Vec3} (h : v ≠ ⟨0, 0, 0⟩) : 0 < Vec3.length v := by
  unfold Vec3.length
  apply Real.sqrt_pos.mpr
  unfold Vec3.dot
  cases v with
  | mk x y z =>
    have hcomp : ¬ (x = 0 ∧ y = 0 ∧ z = 0) := by
      intro hc
      exact h (by simp [hc.1, hc.2.1, hc.2.2])
    by_contra hle
    push_neg at hle
    have hxx : x * x = 0 :=
      le_antisymm (by nlinarith [mul_self_nonneg y, mul_self_nonneg z])
        (mul_self_nonneg x)
    have hyy : y * y = 0 :=
      le_antisymm (by nlinarith [mul_self_nonneg x, mul_self_nonneg z])
        (mul_self_nonneg y)
    have hzz : z * z = 0 :=
      le_antisymm (by nlinarith [mul_self_nonneg x, mul_self_nonneg y])
        (mul_self_nonneg z)
    exact hcomp ⟨mul_self_eq_zero.mp hxx, mul_self_eq_zero.mp hyy,
      mul_self_eq_zero.mp hzz⟩

/-- The shell night-side factor always lies in [0.25, 1]. -/
lemma shellSunFactor_mem (s : ℝ) :
    0.25 ≤ shellSunFactor s ∧ shellSunFactor s ≤ 1 := by
  unfold shellSunFactor
  constructor
  · nlinarith [smoothstep_nonneg (-0.2) 0.25 s]
  · nlinarith [smoothstep_le_one (-0.2) 0.25 s]

/-- When running, update advances the clock by deltaTime·1000·timeSpeed. -/
lemma update_currentDate (s : LightingSystem) (d : ℝ) (h : s.timeSpeed ≠ 0) :
    (s.update d).currentDate = s.currentDate + d * 1000 * s.timeSpeed := by
  simp [LightingSystem.update, LightingSystem.updateSunPosition, h]

/-- update never changes the time speed. -/
lemma update_timeSpeed (s : LightingSystem) (d : ℝ) :
    (s.update d).timeSpeed = s.timeSpeed := by
  by_cases h : s.timeSpeed = 0 <;>
    simp [LightingSystem.update, LightingSystem.updateSunPosition, h]

/-- When running, update repositions the sun from the advanced clock. -/
lemma update_sunPosition (s : LightingSystem) (d : ℝ) (h : s.timeSpeed ≠ 0) :
    (s.update d).sunPosition = (LightingSystem.activeSunDirection
      { s with currentDate := s.currentDate + d * 1000 * s.timeSpeed }).smul
      s.sunDistance := by
  simp [LightingSystem.update, LightingSystem.updateSunPosition, h]

/-! ## Part C: claim theorems -/

/-- Claim C1: update(d) is a no-op on the simulated clock when timeSpeed = 0;
when timeSpeed ≠ 0 it advances currentInstant by exactly d·1000·timeSpeed
milliseconds and recomputes the sun direction from the advanced clock; two
updates with the same delta advance twice (no internal debouncing). -/
theorem claim_C1_clock_update (s : LightingSystem) (d : ℝ) :
    (s.timeSpeed = 0 → s.update d = s) ∧
    (s.timeSpeed ≠ 0 →
      (s.update d).currentDate = s.currentDate + d * 1000 * s.timeSpeed ∧
      (s.update d).sunPosition = (LightingSystem.activeSunDirection
        { s with currentDate := s.currentDate + d * 1000 * s.timeSpeed }).smul
        s.sunDistance ∧
      ((s.update d).update d).currentDate =
        s.currentDate + 2 * (d * 1000 * s.timeSpeed)) := by
  constructor
  · intro h
    simp [LightingSystem.update, h]
  · intro h
    have hts2 : (s.update d).timeSpeed ≠ 0 := by
      rw [update_timeSpeed]; exact h
    refine ⟨update_currentDate s d h, update_sunPosition s d h, ?_⟩
    rw [update_currentDate (s.update d) d hts2, update_currentDate s d h,
      update_timeSpeed]
    ring

/-- Witness for claim C1: with timeSpeed = 60 one update of 1 second advances
the clock from 0 to 60000 milliseconds. -/
theorem claim_C1_clock_update_witness :
    (((LightingSystem.init 0 6371000 149597870700).setTimeSpeed 60).update 1).currentDate
      = 60000 := by
  have h := (claim_C1_clock_update
    ((LightingSystem.init 0 6371000 149597870700).setTimeSpeed 60) 1).2
    (by simp [LightingSystem.init, LightingSystem.setTimeSpeed])
  rw [h.1]
  norm_num [LightingSystem.init, LightingSystem.setTimeSpeed]

/-- Claim C3: dayStrength equals smoothstep(−0.25, 0.5, s): it is 0 for
s ≤ −0.25, 1 for s ≥ 0.5, and strictly increasing in between. -/
theorem claim_C3_dayStrength_shape :
    (∀ s : ℝ, dayStrength s = smoothstep (-0.25) 0.5 s) ∧
    (∀ s : ℝ, s ≤ -0.25 → dayStrength s = 0) ∧
    (∀ s : ℝ, 0.5 ≤ s → dayStrength s = 1) ∧
    (∀ a b : ℝ, -0.25 ≤ a → a < b → b ≤ 0.5 → dayStrength a < dayStrength b) := by
  refine ⟨fun s => rfl, ?_, ?_, ?_⟩
  · intro s h
    exact smoothstep_eq_zero (by norm_num) h
  · intro s h
    exact smoothstep_eq_one (by norm_num) h
  · intro a b h1 h2 h3
    exact smoothstep_strict (by norm_num) h1 h2 h3

/-- Witness for claim C3 at concrete sun orientations. -/
theorem claim_C3_dayStrength_shape_witness :
    dayStrength (-0.3) = 0 ∧ dayStrength 0.7 = 1 ∧ dayStrength 0 < dayStrength 0.25 :=
  ⟨claim_C3_dayStrength_shape.2.1 (-0.3) (by norm_num),
   claim_C3_dayStrength_shape.2.2.1 0.7 (by norm_num),
   claim_C3_dayStrength_shape.2.2.2 0 0.25 (by norm_num) (by norm_num) (by norm_num)⟩

/-- Claim C8: the ray–sphere entry distance is always non-negative, and is
exactly 0 whenever the ray origin lies strictly inside the sphere. -/
theorem claim_C8_raySphereEntry (ro rd : Vec3) (r : ℝ) :
    0 ≤ raySphereEntryT ro rd r ∧
    (Vec3.length ro < r → raySphereEntryT ro rd r = 0) := by
  constructor
  · unfold raySphereEntryT glslMax
    split
    · exact le_rfl
    · exact le_max_right _ _
  · intro hin
    have hdot : 0 ≤ Vec3.dot ro ro := by
      unfold Vec3.dot
      nlinarith [mul_self_nonneg ro.x, mul_self_nonneg ro.y, mul_self_nonneg ro.z]
    have hsq : Vec3.dot ro ro < r * r := by
      have h1 : Real.sqrt (Vec3.dot ro ro) < r := hin
      have h2 : Vec3.dot ro ro < r ^ 2 := by
        have hr : 0 ≤ r := le_trans (Real.sqrt_nonneg _) (le_of_lt h1)
        calc Vec3.dot ro ro = Real.sqrt (Vec3.dot ro ro) ^ 2 := (Real.sq_sqrt hdot).symm
          _ < r ^ 2 := by
              apply pow_lt_pow_left₀ h1 (Real.sqrt_nonneg _)
              norm_num
      nlinarith
    unfold raySphereEntryT glslMax
    have hc : Vec3.dot ro ro - r * r < 0 := by linarith
    have hcond : ¬ (Vec3.dot ro rd * Vec3.dot ro rd - (Vec3.dot ro ro - r * r) ≤ 0) := by
      nlinarith [mul_self_nonneg (Vec3.dot ro rd)]
    rw [if_neg hcond]
    apply max_eq_right
    have hb2 : Vec3.dot ro rd * Vec3.dot ro rd ≤
        Vec3.dot ro rd * Vec3.dot ro rd - (Vec3.dot ro ro - r * r) := by linarith
    have habs : |Vec3.dot ro rd| ≤
        Real.sqrt (Vec3.dot ro rd * Vec3.dot ro rd - (Vec3.dot ro ro - r * r)) := by
      have h3 : Real.sqrt (Vec3.dot ro rd * Vec3.dot ro rd) ≤
          Real.sqrt (Vec3.dot ro rd * Vec3.dot ro rd - (Vec3.dot ro ro - r * r)) :=
        Real.sqrt_le_sqrt hb2
      calc |Vec3.dot ro rd| = Real.sqrt (Vec3.dot ro rd * Vec3.dot ro rd) := by
            rw [Real.sqrt_mul_self_eq_abs]
        _ ≤ _ := h3
    have hnb : -Vec3.dot ro rd ≤ |Vec3.dot ro rd| := neg_le_abs _
    linarith

/-- Witness for claim C8: a ray starting at the center of a unit sphere. -/
theorem claim_C8_raySphereEntry_witness :
    Vec3.length ⟨0, 0, 0⟩ < 1 ∧ raySphereEntryT ⟨0, 0, 0⟩ ⟨0, 0, 1⟩ 1 = 0 := by
  have hlen : Vec3.length (⟨0, 0, 0⟩ : Vec3) < 1 := by
    unfold Vec3.length Vec3.dot
    norm_num
  exact ⟨hlen, (claim_C8_raySphereEntry ⟨0, 0, 0⟩ ⟨0, 0, 1⟩ 1).2 hlen⟩

/-- Counterexample to claim C9 as stated: not every division in the shader
hot path is guarded. Both shaders normalize sunDirection, the world normal
and the view vector by dividing componentwise by an unguarded vector
length, and at the sunDirection uniform's initialization value — the zero
vector (part_000 line 57) — that divisor is 0, not strictly positive. The
second conjunct runs that division inside the shell shader at a full
concrete input: under the embedding's x/0 = 0 convention the zero-length
normalize yields the zero sun direction (in GLSL the quotient 0/0 is
undefined rather than a finite value). -/
theorem claim_C9_counterexample :
    ¬ (0 < Vec3.length ⟨0, 0, 0⟩) ∧
    Vec3.normalize ⟨0, 0, 0⟩ = ⟨0, 0, 0⟩ ∧
    shellSunOrientation
      ⟨⟨0, 0, 0⟩, ⟨0, 0, 0⟩, ⟨0, 0, 0⟩, 1.04, 1.35, 2.2, 1400000⟩
      ⟨⟨1, 0, 0⟩, ⟨1, 0, 0⟩, ⟨2, 0, 0⟩, true⟩ = 0 := by
  have hzero : Vec3.normalize ⟨0, 0, 0⟩ = ⟨0, 0, 0⟩ := by
    unfold Vec3.normalize Vec3.divs
    simp
  have h100 : Vec3.normalize ⟨1, 0, 0⟩ = ⟨1, 0, 0⟩ :=
    normalize_simple _ (by norm_num [Vec3.dot])
  have hN : correctedNormal ⟨1, 0, 0⟩ true = ⟨1, 0, 0⟩ := by
    simp [correctedNormal, h100]
  refine ⟨?_, hzero, ?_⟩
  · rw [length_zero_vec]
    exact lt_irrefl 0
  · unfold shellSunOrientation
    simp only [hN, hzero]
    norm_num [Vec3.dot]

/-- Claim C9 (amended): the four divisions the claim lists are indeed
guarded in the shader code and divide by a strictly positive quantity for
every input, including zero or negative hazeFalloff, heightFade or
atmosphereScale — the surface ray normalization by max(tSurface, 1e-6)
applied to the camera-to-surface distance, the haze exponent by
max(hazeFalloff, 1), the shell planet radius by max(atmosphereScale, 1e-6)
and the height fade by max(heightFade, 1). But the vector normalizations
of both shaders are not guarded: normalize divides by the vector's length,
which is strictly positive only for a nonzero vector and is 0 on the zero
vector, sunDirection's initialization value. -/
theorem claim_C9_division_guards_amended (u : EarthUniformValues)
    (a : AtmosphereUniformValues) (i : EarthFragmentInputs) (v : Vec3) :
    0 < glslMax (Vec3.length (Vec3.sub i.vWorldPosition i.cameraPosition)) 1e-6 ∧
    0 < glslMax u.hazeFalloff 1 ∧
    0 < glslMax a.atmosphereScale 1e-6 ∧
    0 < glslMax a.heightFade 1 ∧
    (v ≠ ⟨0, 0, 0⟩ → 0 < Vec3.length v) ∧
    Vec3.length ⟨0, 0, 0⟩ = 0 := by
  unfold glslMax
  exact ⟨lt_of_lt_of_le (by norm_num) (le_max_right _ _),
    lt_of_lt_of_le (by norm_num) (le_max_right _ _),
    lt_of_lt_of_le (by norm_num) (le_max_right _ _),
    lt_of_lt_of_le (by norm_num) (le_max_right _ _),
    fun h => length_pos_of_ne h,
    length_zero_vec⟩

/-- Witness for the amended claim C9 at concrete inputs: a negative
hazeFalloff (−5), atmosphereScale (−1) and heightFade (−2) still give
strictly positive guarded divisors, and the unguarded normalize divisor is
positive at the nonzero vector (0, 0, 1). -/
theorem claim_C9_division_guards_amended_witness :
    (⟨0, 0, 1⟩ : Vec3) ≠ ⟨0, 0, 0⟩ ∧
    0 < Vec3.length ⟨0, 0, 1⟩ ∧
    0 < glslMax (-5 : ℝ) 1 ∧ 0 < glslMax (-1 : ℝ) 1e-6 ∧
    0 < glslMax (-2 : ℝ) 1 := by
  have hne : (⟨0, 0, 1⟩ : Vec3) ≠ ⟨0, 0, 0⟩ := by
    intro hc
    have hz : (1 : ℝ) = 0 := congrArg Vec3.z hc
    norm_num at hz
  have h := claim_C9_division_guards_amended
    ⟨0, ⟨0, 0, 0⟩, ⟨0, 0, 0⟩, ⟨0, 0, 0⟩, 0, 0, 0, 0, -5, 0⟩
    ⟨⟨0, 0, 0⟩, ⟨0, 0, 0⟩, ⟨0, 0, 0⟩, -1, 0, 0, -2⟩
    ⟨⟨0, 0, 0⟩, ⟨0, 0, 0⟩, 0, ⟨0, 0, 0⟩, ⟨0, 0, 0⟩, ⟨0, 0, 0⟩, ⟨0, 0, 0⟩, true⟩
    ⟨0, 0, 1⟩
  exact ⟨hne, h.2.2.2.2.1 hne, h.2.1, h.2.2.1, h.2.2.2.1⟩

/-- Claim C10: updateSunPosition(some d) durably replaces currentDate with d
(time queries then start from it) and changes no other controller field
except the sun light's position; updateSunPosition(none) recomputes the sun
position from the existing currentDate and changes nothing else. -/
theorem claim_C10_updateSunPosition_effects (s : LightingSystem) (d : ℝ) :
    ((s.updateSunPosition (some d)).currentDate = d ∧
     ((s.updateSunPosition (some d)).getTimeInfo).date = d ∧
     (s.updateSunPosition (some d)).latitude = s.latitude ∧
     (s.updateSunPosition (some d)).longitude = s.longitude ∧
     (s.updateSunPosition (some d)).useSimplified = s.useSimplified ∧
     (s.updateSunPosition (some d)).timeSpeed = s.timeSpeed ∧
     (s.updateSunPosition (some d)).sunIntensity = s.sunIntensity ∧
     (s.updateSunPosition (some d)).ambientIntensity = s.ambientIntensity ∧
     (s.updateSunPosition (some d)).planetRadius = s.planetRadius ∧
     (s.updateSunPosition (some d)).sunDistance = s.sunDistance) ∧
    ((s.updateSunPosition none).currentDate = s.currentDate ∧
     (s.updateSunPosition none).latitude = s.latitude ∧
     (s.updateSunPosition none).longitude = s.longitude ∧
     (s.updateSunPosition none).useSimplified = s.useSimplified ∧
     (s.updateSunPosition none).timeSpeed = s.timeSpeed ∧
     (s.updateSunPosition none).sunIntensity = s.sunIntensity ∧
     (s.updateSunPosition none).ambientIntensity = s.ambientIntensity ∧
     (s.updateSunPosition none).planetRadius = s.planetRadius ∧
     (s.updateSunPosition none).sunDistance = s.sunDistance ∧
     (s.updateSunPosition none).sunPosition =
       (s.activeSunDirection).smul s.sunDistance) := by
  simp [LightingSystem.updateSunPosition, LightingSystem.getTimeInfo]

/-- Claim C6: with a location set and simplified mode off, switching
setSimplifiedMode(true) then setSimplifiedMode(false) leaves latitude and
longitude unchanged and reproduces the full-model sun position from before
the switch; the whole controller state returns to its starting value. -/
theorem claim_C6_mode_roundtrip (s : LightingSystem)
    (hmode : s.useSimplified = false)
    (hsun : s.sunPosition = (getSunDirectionVector s.currentDate s.latitude
      s.longitude).smul s.sunDistance) :
    ((s.setSimplifiedMode true).setSimplifiedMode false).latitude = s.latitude ∧
    ((s.setSimplifiedMode true).setSimplifiedMode false).longitude = s.longitude ∧
    ((s.setSimplifiedMode true).setSimplifiedMode false).sunPosition = s.sunPosition ∧
    (s.setSimplifiedMode true).setSimplifiedMode false = s := by
  cases s with
  | mk planetRadius sunDistance sunPosition sunIntensity ambientIntensity currentDate
      useSimplified latitude longitude timeSpeed =>
    simp only at hmode hsun
    subst hmode
    simp [LightingSystem.setSimplifiedMode, LightingSystem.updateSunPosition,
      LightingSystem.activeSunDirection, hsun]

/-- Witness for claim C6 at a concretely constructed controller state. -/
theorem claim_C6_mode_roundtrip_witness :
    (((LightingSystem.init 0 1 2).setLocation 10 20).setSimplifiedMode
      true).setSimplifiedMode false = (LightingSystem.init 0 1 2).setLocation 10 20 :=
  (claim_C6_mode_roundtrip ((LightingSystem.init 0 1 2).setLocation 10 20)
    rfl rfl).2.2.2

/-- Counterexample to claim C2 as stated: at path length 0 a larger
hazeFalloff (3 instead of 2) leaves the haze unchanged instead of strictly
decreasing it; and with a negative hazeMax configuration the haze value is
negative, outside [0, hazeMax]. -/
theorem claim_C2_counterexample :
    surfaceHaze 1 0 0.85 3 0.85 = surfaceHaze 1 0 0.85 2 0.85 ∧
    surfaceHaze 1 0 0.85 2 (-1) < 0 := by
  have h3 : surfaceHaze 1 0 0.85 3 0.85 = 0 := by
    unfold surfaceHaze glslMax glslClamp
    norm_num [Real.exp_zero]
  have h2 : surfaceHaze 1 0 0.85 2 0.85 = 0 := by
    unfold surfaceHaze glslMax glslClamp
    norm_num [Real.exp_zero]
  have hneg : surfaceHaze 1 0 0.85 2 (-1) = -1 := by
    unfold surfaceHaze glslMax glslClamp
    norm_num [Real.exp_zero]
  refine ⟨by rw [h3, h2], by rw [hneg]; norm_num⟩

/-- Claim C2 (amended): for every pixel and configuration with hazeMax ≥ 0
the haze lies in [0, hazeMax]; for a fixed non-negative path length and
non-negative hazeStrength the haze is weakly decreasing in hazeFalloff, and
it is strictly decreasing when the path length is positive, both falloffs
are at least 1 (the code clamps the falloff below at 1), hazeStrength is
positive, and the larger-falloff haze has not saturated at hazeMax. -/
theorem claim_C2_haze_amended (s pathLen hs M : ℝ) :
    (0 ≤ M → ∀ f : ℝ,
      0 ≤ surfaceHaze s pathLen hs f M ∧ surfaceHaze s pathLen hs f M ≤ M) ∧
    (0 ≤ pathLen → 0 ≤ hs → ∀ f1 f2 : ℝ, f1 ≤ f2 →
      surfaceHaze s pathLen hs f2 M ≤ surfaceHaze s pathLen hs f1 M) ∧
    (∀ f1 f2 : ℝ, 1 ≤ f1 → f1 < f2 → 0 < pathLen → 0 < hs →
      (1 - Real.exp (-pathLen / f2)) * surfaceSunFactor s * hs < M →
      surfaceHaze s pathLen hs f2 M < surfaceHaze s pathLen hs f1 M) := by
  have hsf := surfaceSunFactor_mem s
  refine ⟨?_, ?_, ?_⟩
  · intro hM f
    exact ⟨glslClamp_nonneg _ _ hM, glslClamp_le _ _ _⟩
  · intro hp hhs f1 f2 hf
    unfold surfaceHaze
    apply glslClamp_mono
    have hm1 : (0:ℝ) < glslMax f1 1 :=
      lt_of_lt_of_le (by norm_num) (le_max_right _ _)
    have hm12 : glslMax f1 1 ≤ glslMax f2 1 := max_le_max hf le_rfl
    have hdiv : pathLen / glslMax f2 1 ≤ pathLen / glslMax f1 1 :=
      div_le_div_of_nonneg_left hp hm1 hm12
    have hexp : Real.exp (-pathLen / glslMax f1 1) ≤
        Real.exp (-pathLen / glslMax f2 1) := by
      apply Real.exp_le_exp.mpr
      rw [neg_div, neg_div]
      linarith
    have hbase : (1 - Real.exp (-pathLen / glslMax f2 1)) ≤
        (1 - Real.exp (-pathLen / glslMax f1 1)) := by linarith
    apply mul_le_mul_of_nonneg_right _ hhs
    apply mul_le_mul_of_nonneg_right hbase
    linarith [hsf.1]
  · intro f1 f2 hf1 hf12 hp hhs hsat
    unfold surfaceHaze
    have hm1 : glslMax f1 1 = f1 := max_eq_left hf1
    have hm2 : glslMax f2 1 = f2 := max_eq_left (by linarith)
    rw [hm1, hm2]
    have hf1pos : (0:ℝ) < f1 := by linarith
    have hf2pos : (0:ℝ) < f2 := by linarith
    have hdiv : pathLen / f2 < pathLen / f1 :=
      div_lt_div_of_pos_left hp hf1pos hf12
    have hexp : Real.exp (-pathLen / f1) < Real.exp (-pathLen / f2) := by
      apply Real.exp_lt_exp.mpr
      rw [neg_div, neg_div]
      linarith
    have hexp2 : Real.exp (-pathLen / f2) < 1 := by
      have harg : -pathLen / f2 < 0 := by
        rw [neg_div]
        exact neg_neg_iff_pos.mpr (div_pos hp hf2pos)
      calc Real.exp (-pathLen / f2) < Real.exp 0 := Real.exp_lt_exp.mpr harg
        _ = 1 := Real.exp_zero
    have hsfpos : (0:ℝ) < surfaceSunFactor s := by linarith [hsf.1]
    have hu2pos : 0 < (1 - Real.exp (-pathLen / f2)) * surfaceSunFactor s * hs := by
      apply mul_pos (mul_pos (by linarith) hsfpos) hhs
    have hu12 : (1 - Real.exp (-pathLen / f2)) * surfaceSunFactor s * hs <
        (1 - Real.exp (-pathLen / f1)) * surfaceSunFactor s * hs := by
      apply mul_lt_mul_of_pos_right _ hhs
      apply mul_lt_mul_of_pos_right _ hsfpos
      linarith
    rw [glslClamp_of_mem _ _ _ (le_of_lt hu2pos) (le_of_lt hsat)]
    unfold glslClamp
    rw [max_eq_left (by linarith)]
    exact lt_min hu12 hsat

/-- Witness for the amended claim C2: concrete range membership and a
concrete strict decrease from hazeFalloff 1 to hazeFalloff 2. -/
theorem claim_C2_haze_amended_witness :
    (0 ≤ surfaceHaze 1 1 0.85 1 0.85 ∧ surfaceHaze 1 1 0.85 1 0.85 ≤ 0.85) ∧
    surfaceHaze 1 1 0.85 2 0.85 < surfaceHaze 1 1 0.85 1 0.85 := by
  have h := claim_C2_haze_amended 1 1 0.85 0.85
  have hsf1 : surfaceSunFactor 1 = 1 := by
    unfold surfaceSunFactor
    rw [smoothstep_eq_one (by norm_num) (by norm_num)]
    norm_num
  refine ⟨h.1 (by norm_num) 1, ?_⟩
  apply h.2.2 1 2 (by norm_num) (by norm_num) (by norm_num) (by norm_num)
  rw [hsf1]
  nlinarith [Real.exp_pos (-(1:ℝ) / 2)]

/-- Counterexample to claim C5 as stated: when the view direction is parallel
to the surface normal the fresnel ring and the sun spot both vanish, so the
shell alpha is exactly 0, i.e. the output is fully transparent. The uniform
values are the source defaults (scale 1.04, haloStrength 1.35, haloPower
2.2, heightFade 1400000). -/
theorem claim_C5_counterexample :
    atmosphereAlpha
      ⟨⟨1, 0, 0⟩, ⟨0, 0, 0⟩, ⟨0, 0, 0⟩, 1.04, 1.35, 2.2, 1400000⟩
      ⟨⟨1, 0, 0⟩, ⟨1, 0, 0⟩, ⟨2, 0, 0⟩, true⟩ = 0 := by
  have h100 : Vec3.normalize ⟨1, 0, 0⟩ = ⟨1, 0, 0⟩ :=
    normalize_simple _ (by norm_num [Vec3.dot])
  have hsub : Vec3.sub ⟨2, 0, 0⟩ ⟨1, 0, 0⟩ = ⟨1, 0, 0⟩ := by
    simp [Vec3.sub]
    norm_num
  have hN : correctedNormal ⟨1, 0, 0⟩ true = ⟨1, 0, 0⟩ := by
    simp [correctedNormal, h100]
  have hV : shellViewDir ⟨⟨1, 0, 0⟩, ⟨1, 0, 0⟩, ⟨2, 0, 0⟩, true⟩ = ⟨1, 0, 0⟩ := by
    simp [shellViewDir, hsub, h100]
  have hring : shellRing
      ⟨⟨1, 0, 0⟩, ⟨0, 0, 0⟩, ⟨0, 0, 0⟩, 1.04, 1.35, 2.2, 1400000⟩
      ⟨⟨1, 0, 0⟩, ⟨1, 0, 0⟩, ⟨2, 0, 0⟩, true⟩ = 0 := by
    unfold shellRing
    rw [hV]
    simp only [hN]
    rw [show Vec3.dot ⟨1, 0, 0⟩ ⟨1, 0, 0⟩ = 1 by norm_num [Vec3.dot]]
    rw [show |(1:ℝ)| = 1 from abs_one]
    rw [show (1:ℝ) - 1 = 0 by norm_num]
    rw [glslClamp_of_mem _ _ _ le_rfl zero_le_one]
    unfold glslPow
    exact Real.zero_rpow (by norm_num)
  have hspot : shellSunSpot
      ⟨⟨1, 0, 0⟩, ⟨0, 0, 0⟩, ⟨0, 0, 0⟩, 1.04, 1.35, 2.2, 1400000⟩
      ⟨⟨1, 0, 0⟩, ⟨1, 0, 0⟩, ⟨2, 0, 0⟩, true⟩ = 0 := by
    unfold shellSunSpot
    rw [hV]
    simp only [h100]
    rw [show Vec3.dot (Vec3.smul ⟨1, 0, 0⟩ (-1)) ⟨1, 0, 0⟩ = -1 by
      norm_num [Vec3.smul, Vec3.dot]]
    rw [show glslMax (-1 : ℝ) 0 = 0 from max_eq_right (by norm_num)]
    unfold glslPow
    exact Real.zero_rpow (by norm_num)
  unfold atmosphereAlpha
  rw [hring, hspot]
  rw [show ((⟨⟨1, 0, 0⟩, ⟨0, 0, 0⟩, ⟨0, 0, 0⟩, 1.04, 1.35, 2.2, 1400000⟩ :
    AtmosphereUniformValues).haloStrength *
      shellDensity ⟨⟨1, 0, 0⟩, ⟨0, 0, 0⟩, ⟨0, 0, 0⟩, 1.04, 1.35, 2.2, 1400000⟩
        ⟨⟨1, 0, 0⟩, ⟨1, 0, 0⟩, ⟨2, 0, 0⟩, true⟩ * 0 + 0.35 * 0 * 0) *
      shellSunFactor (shellSunOrientation
        ⟨⟨1, 0, 0⟩, ⟨0, 0, 0⟩, ⟨0, 0, 0⟩, 1.04, 1.35, 2.2, 1400000⟩
        ⟨⟨1, 0, 0⟩, ⟨1, 0, 0⟩, ⟨2, 0, 0⟩, true⟩) = 0 by ring]
  rw [glslClamp_of_mem _ _ _ le_rfl zero_le_one]

/-- Claim C5 (amended): the shell alpha always lies in the closed interval
[0, 1]; it can attain both endpoints (0 in particular when the fresnel ring
vanishes), so the output is clamped rather than never-transparent and
never-opaque. -/
theorem claim_C5_alpha_range_amended (u : AtmosphereUniformValues)
    (i : AtmosphereFragmentInputs) :
    0 ≤ atmosphereAlpha u i ∧ atmosphereAlpha u i ≤ 1 :=
  ⟨glslClamp_nonneg _ _ zero_le_one, glslClamp_le _ _ _⟩

/-- Counterexample to claim C4 as stated: the shader multiplies the night
factor before clamping (the spec formula clamps first and scales after) and
its night factor uses smoothstep(−0.2, 0.25, ·), not the surface factor
smoothstep(−0.15, 0.25, ·). At a grazing-view input with haloStrength 100
the shader alpha saturates at 1 while the spec formula gives 499/1024. -/
theorem claim_C4_counterexample :
    atmosphereAlpha
      ⟨⟨0, 0, 1⟩, ⟨0, 0, 0⟩, ⟨0, 0, 0⟩, 1, 100, 1, 1⟩
      ⟨⟨1, 0, 0⟩, ⟨1, 0, 0⟩, ⟨1, 0, 1⟩, true⟩ ≠
    atmosphereAlphaSpecC4
      ⟨⟨0, 0, 1⟩, ⟨0, 0, 0⟩, ⟨0, 0, 0⟩, 1, 100, 1, 1⟩
      ⟨⟨1, 0, 0⟩, ⟨1, 0, 0⟩, ⟨1, 0, 1⟩, true⟩ := by
  have h100 : Vec3.normalize ⟨1, 0, 0⟩ = ⟨1, 0, 0⟩ :=
    normalize_simple _ (by norm_num [Vec3.dot])
  have h001 : Vec3.normalize ⟨0, 0, 1⟩ = ⟨0, 0, 1⟩ :=
    normalize_simple _ (by norm_num [Vec3.dot])
  have hsub : Vec3.sub ⟨1, 0, 1⟩ ⟨1, 0, 0⟩ = ⟨0, 0, 1⟩ := by
    simp [Vec3.sub]
  have hN : correctedNormal ⟨1, 0, 0⟩ true = ⟨1, 0, 0⟩ := by
    simp [correctedNormal, h100]
  have hV : shellViewDir ⟨⟨1, 0, 0⟩, ⟨1, 0, 0⟩, ⟨1, 0, 1⟩, true⟩ = ⟨0, 0, 1⟩ := by
    simp [shellViewDir, hsub, h001]
  have hso : shellSunOrientation
      ⟨⟨0, 0, 1⟩, ⟨0, 0, 0⟩, ⟨0, 0, 0⟩, 1, 100, 1, 1⟩
      ⟨⟨1, 0, 0⟩, ⟨1, 0, 0⟩, ⟨1, 0, 1⟩, true⟩ = 0 := by
    unfold shellSunOrientation
    simp only [hN, h001]
    norm_num [Vec3.dot]
  have hring : shellRing
      ⟨⟨0, 0, 1⟩, ⟨0, 0, 0⟩, ⟨0, 0, 0⟩, 1, 100, 1, 1⟩
      ⟨⟨1, 0, 0⟩, ⟨1, 0, 0⟩, ⟨1, 0, 1⟩, true⟩ = 1 := by
    unfold shellRing
    rw [hV]
    simp only [hN]
    rw [show Vec3.dot ⟨0, 0, 1⟩ ⟨1, 0, 0⟩ = 0 by norm_num [Vec3.dot]]
    rw [show |(0:ℝ)| = 0 from abs_zero]
    rw [show (1:ℝ) - 0 = 1 by norm_num]
    rw [glslClamp_of_mem _ _ _ zero_le_one le_rfl]
    unfold glslPow
    exact Real.one_rpow _
  have hspot : shellSunSpot
      ⟨⟨0, 0, 1⟩, ⟨0, 0, 0⟩, ⟨0, 0, 0⟩, 1, 100, 1, 1⟩
      ⟨⟨1, 0, 0⟩, ⟨1, 0, 0⟩, ⟨1, 0, 1⟩, true⟩ = 0 := by
    unfold shellSunSpot
    rw [hV]
    simp only [h001]
    rw [show Vec3.dot (Vec3.smul ⟨0, 0, 1⟩ (-1)) ⟨0, 0, 1⟩ = -1 by
      norm_num [Vec3.smul, Vec3.dot]]
    rw [show glslMax (-1 : ℝ) 0 = 0 from max_eq_right (by norm_num)]
    unfold glslPow
    exact Real.zero_rpow (by norm_num)
  have hd : 0.18 ≤ shellDensity
      ⟨⟨0, 0, 1⟩, ⟨0, 0, 0⟩, ⟨0, 0, 0⟩, 1, 100, 1, 1⟩
      ⟨⟨1, 0, 0⟩, ⟨1, 0, 0⟩, ⟨1, 0, 1⟩, true⟩ := by
    unfold shellDensity glslMix
    have hc := glslClamp_mem_Icc (shellAltFactor
      ⟨⟨0, 0, 1⟩, ⟨0, 0, 0⟩, ⟨0, 0, 0⟩, 1, 100, 1, 1⟩
      ⟨⟨1, 0, 0⟩, ⟨1, 0, 0⟩, ⟨1, 0, 1⟩, true⟩) 0 1 zero_le_one
    nlinarith [hc.1, hc.2]
  have hcode : atmosphereAlpha
      ⟨⟨0, 0, 1⟩, ⟨0, 0, 0⟩, ⟨0, 0, 0⟩, 1, 100, 1, 1⟩
      ⟨⟨1, 0, 0⟩, ⟨1, 0, 0⟩, ⟨1, 0, 1⟩, true⟩ = 1 := by
    unfold atmosphereAlpha
    rw [hring, hspot, hso]
    apply glslClamp_eq_hi _ zero_le_one
    have hsf := shellSunFactor_mem 0
    show (1:ℝ) ≤ _
    nlinarith [hd, hsf.1, hsf.2]
  have hsfc : surfaceSunFactor 0 = 499 / 1024 := by
    unfold surfaceSunFactor smoothstep
    rw [glslClamp_of_mem _ _ _ (by norm_num) (by norm_num)]
    unfold hermite
    norm_num
  have hspec : atmosphereAlphaSpecC4
      ⟨⟨0, 0, 1⟩, ⟨0, 0, 0⟩, ⟨0, 0, 0⟩, 1, 100, 1, 1⟩
      ⟨⟨1, 0, 0⟩, ⟨1, 0, 0⟩, ⟨1, 0, 1⟩, true⟩ = 499 / 1024 := by
    unfold atmosphereAlphaSpecC4
    rw [hring, hspot, hso, hsfc]
    rw [glslClamp_eq_hi (by nlinarith [hd] : (1:ℝ) ≤ _) zero_le_one]
    norm_num
  rw [hcode, hspec]
  norm_num

/-- Claim C4 (amended): the shell alpha equals
clamp((haloStrength·density·ring + 0.35·sunSpot·ring) ·
(0.25 + 0.75·smoothstep(−0.2, 0.25, sunOrientation)), 0, 1): the night
factor multiplies before the clamp and uses the −0.2 lower edge, which is
not the surface haze factor. -/
theorem claim_C4_alpha_formula_amended (u : AtmosphereUniformValues)
    (i : AtmosphereFragmentInputs) :
    atmosphereAlpha u i =
      glslClamp
        ((u.haloStrength * shellDensity u i * shellRing u i +
          0.35 * shellSunSpot u i * shellRing u i) *
          (0.25 + 0.75 * smoothstep (-0.2) 0.25 (shellSunOrientation u i))) 0 1 := rfl

/-- Counterexample to claim C7 as stated: the roughnessLow uniform belongs to
the ShadingParameters, yet after cloning a concretely created base
material, a mutation through the base's roughnessLow cell (writing 99) is
not observed by the clone — the clone still reads its copied value, so the
clone does not share the ShadingParameters by reference. -/
theorem claim_C7_counterexample :
    writeCell
      (cloneEarthMaterial
        (createEarthMaterialRefs emptyStore 0 (some 100) (some 101) (some 102)
          ⟨(1, 2, 3), (4, 5, 6), 25, 35, 104, 85, 900000, 85⟩).1
        (createEarthMaterialRefs emptyStore 0 (some 100) (some 101) (some 102)
          ⟨(1, 2, 3), (4, 5, 6), 25, 35, 104, 85, 900000, 85⟩).2.1
        (createEarthMaterialRefs emptyStore 0 (some 100) (some 101) (some 102)
          ⟨(1, 2, 3), (4, 5, 6), 25, 35, 104, 85, 900000, 85⟩).2.2).2.1
      (createEarthMaterialRefs emptyStore 0 (some 100) (some 101) (some 102)
        ⟨(1, 2, 3), (4, 5, 6), 25, 35, 104, 85, 900000, 85⟩).1.roughnessLow
      (UniformValue.num 99)
      ((cloneEarthMaterial
        (createEarthMaterialRefs emptyStore 0 (some 100) (some 101) (some 102)
          ⟨(1, 2, 3), (4, 5, 6), 25, 35, 104, 85, 900000, 85⟩).1
        (createEarthMaterialRefs emptyStore 0 (some 100) (some 101) (some 102)
          ⟨(1, 2, 3), (4, 5, 6), 25, 35, 104, 85, 900000, 85⟩).2.1
        (createEarthMaterialRefs emptyStore 0 (some 100) (some 101) (some 102)
          ⟨(1, 2, 3), (4, 5, 6), 25, 35, 104, 85, 900000, 85⟩).2.2).1.roughnessLow)
      ≠ UniformValue.num 99 := by
  decide

/-- Claim C7 (amended): clone() shares by reference exactly the sunDirection
and the two atmosphere color cells — a mutation through the base is observed
by the clone there — while the textures and the roughness scalars are copied
by value into fresh cells (base mutations are not observed), the haze and
scale uniforms are not carried into the clone at all, and the clone's
overlay slot starts empty (null texture, useImagery = 0) with a map setter
that writes only the clone's own cells. -/
theorem claim_C7_clone_amended (m : EarthMaterialRefs) (st : UniformStore)
    (fresh : ℕ) (v : UniformValue)
    (hrl : m.roughnessLow < fresh)
    (himg : m.imageryTexture < fresh) (hui : m.useImagery < fresh) :
    ((cloneEarthMaterial m st fresh).1.sunDirection = m.sunDirection ∧
     (cloneEarthMaterial m st fresh).1.atmosphereDayColor = m.atmosphereDayColor ∧
     (cloneEarthMaterial m st fresh).1.atmosphereTwilightColor =
       m.atmosphereTwilightColor) ∧
    writeCell (cloneEarthMaterial m st fresh).2.1 m.sunDirection v
      ((cloneEarthMaterial m st fresh).1.sunDirection) = v ∧
    ((cloneEarthMaterial m st fresh).2.1
        ((cloneEarthMaterial m st fresh).1.imageryTexture) = UniformValue.tex none ∧
     (cloneEarthMaterial m st fresh).2.1
        ((cloneEarthMaterial m st fresh).1.useImagery) = UniformValue.num 0) ∧
    ((cloneEarthMaterial m st fresh).1.roughnessLow ≠ m.roughnessLow ∧
     writeCell (cloneEarthMaterial m st fresh).2.1 m.roughnessLow v
       ((cloneEarthMaterial m st fresh).1.roughnessLow) = st m.roughnessLow) ∧
    ((cloneEarthMaterial m st fresh).1.atmosphereScale = none ∧
     (cloneEarthMaterial m st fresh).1.hazeStrength = none ∧
     (cloneEarthMaterial m st fresh).1.hazeFalloff = none ∧
     (cloneEarthMaterial m st fresh).1.hazeMax = none) ∧
    (setMap (cloneEarthMaterial m st fresh).1 ((cloneEarthMaterial m st fresh).2.1)
        (some 7) m.imageryTexture =
      (cloneEarthMaterial m st fresh).2.1 m.imageryTexture ∧
     setMap (cloneEarthMaterial m st fresh).1 ((cloneEarthMaterial m st fresh).2.1)
        (some 7) m.useImagery =
      (cloneEarthMaterial m st fresh).2.1 m.useImagery) := by
  have hrl5 : fresh + 5 ≠ m.roughnessLow := by omega
  have himg3 : m.imageryTexture ≠ fresh + 3 := by omega
  have himg4 : m.imageryTexture ≠ fresh + 4 := by omega
  have hui3 : m.useImagery ≠ fresh + 3 := by omega
  have hui4 : m.useImagery ≠ fresh + 4 := by omega
  refine ⟨⟨rfl, rfl, rfl⟩, ?_, ⟨?_, ?_⟩, ⟨?_, ?_⟩, ⟨rfl, rfl, rfl, rfl⟩, ?_, ?_⟩
  · simp [cloneEarthMaterial, writeCell]
  · simp [cloneEarthMaterial, writeCell]
  · simp [cloneEarthMaterial, writeCell]
  · simp [cloneEarthMaterial]
    omega
  · simp [cloneEarthMaterial, writeCell, hrl5]
  · simp [cloneEarthMaterial, setMap, writeCell, himg3, himg4]
  · simp [cloneEarthMaterial, setMap, writeCell, hui3, hui4]

/-- Witness for the amended claim C7 on the concretely created base
material: the freshness hypotheses hold and a write of 42 through the
base's shared sunDirection cell is observed by the clone, whose overlay
slot starts as a null texture. -/
theorem claim_C7_clone_amended_witness :
    ((createEarthMaterialRefs emptyStore 0 (some 100) (some 101) (some 102)
        ⟨(1, 2, 3), (4, 5, 6), 25, 35, 104, 85, 900000, 85⟩).1.roughnessLow < 14 ∧
     (createEarthMaterialRefs emptyStore 0 (some 100) (some 101) (some 102)
        ⟨(1, 2, 3), (4, 5, 6), 25, 35, 104, 85, 900000, 85⟩).1.imageryTexture < 14 ∧
     (createEarthMaterialRefs emptyStore 0 (some 100) (some 101) (some 102)
        ⟨(1, 2, 3), (4, 5, 6), 25, 35, 104, 85, 900000, 85⟩).1.useImagery < 14) ∧
    writeCell
      (cloneEarthMaterial
        (createEarthMaterialRefs emptyStore 0 (some 100) (some 101) (some 102)
          ⟨(1, 2, 3), (4, 5, 6), 25, 35, 104, 85, 900000, 85⟩).1
        (createEarthMaterialRefs emptyStore 0 (some 100) (some 101) (some 102)
          ⟨(1, 2, 3), (4, 5, 6), 25, 35, 104, 85, 900000, 85⟩).2.1 14).2.1
      (createEarthMaterialRefs emptyStore 0 (some 100) (some 101) (some 102)
        ⟨(1, 2, 3), (4, 5, 6), 25, 35, 104, 85, 900000, 85⟩).1.sunDirection
      (UniformValue.num 42)
      ((cloneEarthMaterial
        (createEarthMaterialRefs emptyStore 0 (some 100) (some 101) (some 102)
          ⟨(1, 2, 3), (4, 5, 6), 25, 35, 104, 85, 900000, 85⟩).1
        (createEarthMaterialRefs emptyStore 0 (some 100) (some 101) (some 102)
          ⟨(1, 2, 3), (4, 5, 6), 25, 35, 104, 85, 900000, 85⟩).2.1 14).1.sunDirection)
      = UniformValue.num 42 ∧
    (cloneEarthMaterial
        (createEarthMaterialRefs emptyStore 0 (some 100) (some 101) (some 102)
          ⟨(1, 2, 3), (4, 5, 6), 25, 35, 104, 85, 900000, 85⟩).1
        (createEarthMaterialRefs emptyStore 0 (some 100) (some 101) (some 102)
          ⟨(1, 2, 3), (4, 5, 6), 25, 35, 104, 85, 900000, 85⟩).2.1 14).2.1
      ((cloneEarthMaterial
        (createEarthMaterialRefs emptyStore 0 (some 100) (some 101) (some 102)
          ⟨(1, 2, 3), (4, 5, 6), 25, 35, 104, 85, 900000, 85⟩).1
        (createEarthMaterialRefs emptyStore 0 (some 100) (some 101) (some 102)
          ⟨(1, 2, 3), (4, 5, 6), 25, 35, 104, 85, 900000, 85⟩).2.1 14).1.imageryTexture)
      = UniformValue.tex none := by
  have h := claim_C7_clone_amended
    (createEarthMaterialRefs emptyStore 0 (some 100) (some 101) (some 102)
      ⟨(1, 2, 3), (4, 5, 6), 25, 35, 104, 85, 900000, 85⟩).1
    (createEarthMaterialRefs emptyStore 0 (some 100) (some 101) (some 102)
      ⟨(1, 2, 3), (4, 5, 6), 25, 35, 104, 85, 900000, 85⟩).2.1
    14 (UniformValue.num 42) (by decide) (by decide) (by decide)
  exact ⟨⟨by decide, by decide, by decide⟩, h.2.1, h.2.2.1.1⟩

end

end GeoEarth
